import Mathlib

/-!
Verification of the vast-pyworker repository: a shallow embedding of its
payload validation, health-state monitor, concurrency gate, request
pipeline, endpoint handlers and the legacy synchronous TGI proxy, with
theorems settling the frozen claims about them.
-/

namespace VastPyworker

/-! ### Payload validation — src/workers/whisper/data_types.py

Python represents a parsed JSON body as a dict; we embed it as an
association list of string keys to abstract values (JSON dict keys are
unique, so a Nodup hypothesis appears where a statement needs it).
The value type is abstracted to String: validation only inspects keys. -/

abbrev JsonVal := String

abbrev JsonMsg := List (String × JsonVal)

/-- Keys of a JSON object, in insertion order (Python dict order). -/
def keysOf (msg : JsonMsg) : List String := msg.map Prod.fst

/-- Embeds the error-collection loop of InputData.from_json_msg
(src/workers/whisper/data_types.py, lines 27-31): iterate the declared
dataclass parameters in order (inspect.signature(cls).parameters) and map
each one absent from the body to the reason string.  The Python dict
insert becomes a list append; signature parameters are distinct. -/
def collectErrors (params : List String) (msg : JsonMsg) : List (String × String) :=
  params.foldl
    (fun errs param =>
      if (keysOf msg).contains param then errs
      else errs ++ [(param, "missing parameter")])
    []

/-- Embeds InputData.from_json_msg (src/workers/whisper/data_types.py,
lines 26-40), generic over the declared parameter list of the dataclass:
when the collected errors are nonempty a JsonDataException carrying them
is raised (Except.error); otherwise the dataclass is constructed from the
body restricted to the declared parameters. -/
def from_json_msg (params : List String) (msg : JsonMsg) :
    Except (List (String × String)) JsonMsg :=
  let errors := collectErrors params msg
  if errors.isEmpty then
    .ok (msg.filter (fun kv => params.contains kv.1))
  else
    .error errors

/-- The declared parameters of the whisper InputData dataclass
(src/workers/whisper/data_types.py, line 11: the single field audio_file). -/
def whisperParams : List String := ["audio_file"]

/-- src/workers/whisper/data_types.py: the InputData dataclass. -/
structure InputData where
  audio_file : String
deriving DecidableEq, Repr

/-- InputData.for_test (src/workers/whisper/data_types.py, lines 13-16). -/
def InputData.for_test : InputData :=
  { audio_file := "misc/samples_jfk.mp3" }

/-- InputData.count_workload (src/workers/whisper/data_types.py,
lines 21-23): returns the literal 11 without reading any field. -/
def InputData.count_workload (_ : InputData) : Nat := 11

/-- InputData.generate_payload_json (src/workers/whisper/data_types.py,
lines 18-19): dataclasses.asdict of the payload. -/
def InputData.generate_payload_json (d : InputData) : JsonMsg :=
  [("audio_file", d.audio_file)]

/-! ### Readiness Monitor — spec section 4.1

The Backend class and its log monitor live in lib/backend.py, which is not
among the repository files under src/; only its configuration (the
log_actions lists in the worker servers) and its callers are.  The state
machine below is therefore modelled from the spec; the rule lists are
embedded from the source files. -/

/-- The LogAction enum imported from lib.backend by every worker server
(src/workers/whisper/server.py, src/workers/tgi/server.py,
src/workers/hello_world/server.py). -/
inductive LogAction
  | ModelLoaded
  | Info
  | ModelError
deriving DecidableEq, Repr

/-- Modelled from the spec: the Health State of lib/backend.py, one of
Starting, Loading, Ready with an absorbing Crashed state (spec section 3). -/
inductive HealthState
  | starting
  | loading
  | ready
  | crashed
deriving DecidableEq, Repr

/-- Substring containment on character lists: marker occurs contiguously
inside the line. -/
def containsSeq (marker : List Char) : List Char → Bool
  | [] => marker.isEmpty
  | c :: rest => marker.isPrefixOf (c :: rest) || containsSeq marker rest

/-- A log line contains a marker (spec section 4.1: matching is substring
containment). -/
def lineContains (line marker : String) : Bool :=
  containsSeq marker.data line.data

/-- Modelled from the spec (section 4.1): the effect of one matched rule
action on the Health State.  ModelError sends any state to Crashed,
ModelLoaded completes Loading to Ready (idempotent on repeat), Info changes
nothing, and Crashed absorbs every action. -/
def applyAction (s : HealthState) (a : LogAction) : HealthState :=
  match s, a with
  | .crashed, _ => .crashed
  | _, .ModelError => .crashed
  | .loading, .ModelLoaded => .ready
  | s, _ => s

/-- Modelled from the spec (section 4.1): one log line is evaluated against
all rules; every rule whose marker the line contains applies, in rule
order. -/
def applyLine (rules : List (LogAction × String)) (s : HealthState)
    (line : String) : HealthState :=
  (rules.filter (fun r => lineContains line r.2)).foldl
    (fun st r => applyAction st r.1) s

/-- Modelled from the spec (section 4.1): the monitor folds the growing log
stream, line by line, through the rule set. -/
def runMonitor (rules : List (LogAction × String)) (s : HealthState)
    (lines : List String) : HealthState :=
  lines.foldl (applyLine rules) s

/-- The log_actions configuration of the whisper worker
(src/workers/whisper/server.py, lines 130-137). -/
def whisperLogActions : List (LogAction × String) :=
  [(.ModelLoaded, "Application startup complete."),
   (.Info, "100%"),
   (.ModelError, "CUDA error"),
   (.ModelError, "CUDA out of memory")]

/-! ### Request Pipeline — spec section 4.4

Backend.handle_request lives in lib/backend.py, not under src/; the
admission, sample-recording and error mapping below are modelled from the
spec (steps 1-10 of section 4.4 and the taxonomy of section 7). -/

/-- Metrics calls observable on a request path: the starting and the
finishing of a Workload Sample. -/
inductive MetricsEvent
  | startReq
  | finishReqOk
  | finishReqFailed
deriving DecidableEq, Repr

/-- Outcome of one upstream call attempt: a transport failure (connection
refused, timeout) or a response with a status code and a chunked body. -/
inductive Upstream
  | transportError
  | ok (status : Nat) (chunks : List String)
deriving DecidableEq, Repr

/-- What one trip through the pipeline produced: the status returned to the
client, whether an upstream call was attempted, and the Workload Sample
events recorded. -/
structure PipeResult where
  status : Nat
  upstreamCalled : Bool
  sampleEvents : List MetricsEvent
deriving DecidableEq, Repr

/-- Modelled from the spec: one request through Backend.handle_request
(lib/backend.py, not under src/), following section 4.4: a validation
failure answers 422 with no upstream call and no sample; a Health State
other than Ready fails fast with a server-unavailable response and no
upstream call; otherwise the sample is started, the upstream call is
issued, a transport failure maps to a generic 500 with the sample marked
failed, and an upstream response passes its status through. -/
def pipelineStep (h : HealthState)
    (parsed : Except (List (String × String)) JsonMsg)
    (up : Upstream) : PipeResult :=
  match parsed with
  | .error _ => { status := 422, upstreamCalled := false, sampleEvents := [] }
  | .ok _ =>
    if h = .ready then
      match up with
      | .transportError =>
          { status := 500, upstreamCalled := true,
            sampleEvents := [.startReq, .finishReqFailed] }
      | .ok st _ =>
          { status := st, upstreamCalled := true,
            sampleEvents := [.startReq, .finishReqOk] }
    else
      { status := 503, upstreamCalled := false, sampleEvents := [] }

/-- Modelled from the spec (sections 3 and 5): requests are processed in
sequence and the Health State is mutated only by the Readiness Monitor,
never by the pipeline, so it threads through unchanged. -/
def pipelineRun (h : HealthState)
    (reqs : List ((Except (List (String × String)) JsonMsg) × Upstream)) :
    List PipeResult × HealthState :=
  match reqs with
  | [] => ([], h)
  | r :: rs =>
    let res := pipelineStep h r.1 r.2
    let rest := pipelineRun h rs
    (res :: rest.1, rest.2)

/-! ### Concurrency Gate — spec section 4.2

The gate lives in lib/backend.py, not under src/ (the worker servers only
choose its mode through allow_parallel_requests).  The Exclusive mode is
modelled from the spec as a labelled transition system: requests arrive
into a FIFO queue, a start is enabled only when nothing is in flight and
releases the queue head, a finish drains the in-flight request.  The
started and finished histories record release and completion order. -/

/-- Gate state: the waiting queue, the at-most-one in-flight request
(Option enforces the single-flight bound structurally), and the histories
of arrivals, starts and finishes in order. -/
structure GateState where
  queue : List Nat
  inflight : Option Nat
  started : List Nat
  finished : List Nat
  arrived : List Nat
deriving DecidableEq, Repr

/-- The gate before any event. -/
def gate0 : GateState :=
  { queue := [], inflight := none, started := [], finished := [], arrived := [] }

/-- Events of the Exclusive gate: a request arrives, the queue head starts
forwarding, the in-flight request completes (its response fully drained,
success or failure alike). -/
inductive GateEvent
  | arrive (r : Nat)
  | start
  | finish
deriving DecidableEq, Repr

/-- Modelled from the spec (section 4.2, Exclusive): one gate transition.
An arrival appends to the queue; a start is enabled only with no request
in flight and admits exactly the queue head (strict FIFO, released one at
a time); a finish requires a request in flight and completes it. -/
def stepGate (s : GateState) : GateEvent → Option GateState
  | .arrive r =>
      some { s with queue := s.queue ++ [r], arrived := s.arrived ++ [r] }
  | .start =>
      match s.inflight, s.queue with
      | none, r :: rest =>
          some { s with
                  inflight := some r
                  queue := rest
                  started := s.started ++ [r] }
      | _, _ => none
  | .finish =>
      match s.inflight with
      | some r => some { s with inflight := none, finished := s.finished ++ [r] }
      | none => none

/-- Run the gate over an event sequence; none when an event fires without
its guard. -/
def runGate : GateState → List GateEvent → Option GateState
  | s, [] => some s
  | s, e :: es =>
    match stepGate s e with
    | none => none
    | some s2 => runGate s2 es

/-- The gate invariant: everything ever started is the finished history
followed by the current in-flight request, and the arrival history is the
started history followed by the waiting queue (so releases follow arrival
order exactly). -/
def GateInv (s : GateState) : Prop :=
  s.started = s.finished ++ s.inflight.toList
    ∧ s.arrived = s.started ++ s.queue

/-! ### Endpoint handlers — src/workers/tgi/server.py,
src/workers/hello_world/server.py, src/workers/whisper/server.py

The handlers convert an upstream (model API) response into the response
sent to the pyworker client.  An upstream response is a status code plus
either a JSON body or a chunk stream; a client response is a plain status,
a JSON response, or a streamed response built chunk by chunk. -/

/-- An aiohttp web.StreamResponse under construction: its content type,
the chunks written so far in order, and whether write_eof was called. -/
structure StreamResponse where
  contentType : String
  written : List String
  eofSent : Bool
deriving DecidableEq, Repr

/-- A response to the pyworker client: web.Response(status=code) with no
body, web.json_response with a status and JSON body, or a streamed
response. -/
inductive ClientResponse
  | plain (status : Nat)
  | jsonData (status : Nat) (body : JsonMsg)
  | streamed (res : StreamResponse)
deriving DecidableEq, Repr

/-- The chunk-forwarding loop of GenerateStreamHandler.generate_response
(src/workers/tgi/server.py, lines 86-87 and
src/workers/hello_world/server.py): each upstream chunk is written to the
client stream as it arrives, appending to the written sequence. -/
def writeLoop (res : StreamResponse) : List String → StreamResponse
  | [] => res
  | c :: cs => writeLoop { res with written := res.written ++ [c] } cs

/-- GenerateStreamHandler.generate_response (src/workers/tgi/server.py,
lines 79-95): on upstream 200, prepare a text/event-stream response, write
every upstream chunk in order, then write_eof; on any other status return
web.Response(status=code) with no transformation and no streaming. -/
def GenerateStreamHandler_generate_response (upstreamStatus : Nat)
    (content : List String) : ClientResponse :=
  match upstreamStatus with
  | 200 =>
      let res := writeLoop
        { contentType := "text/event-stream", written := [], eofSent := false }
        content
      .streamed { res with eofSent := true }
  | code => .plain code

/-- GenerateHandler.generate_response (src/workers/tgi/server.py,
lines 43-54): on upstream 200, return the upstream JSON body as a JSON
response; on any other status return web.Response(status=code). -/
def GenerateHandler_generate_response (upstreamStatus : Nat)
    (body : JsonMsg) : ClientResponse :=
  match upstreamStatus with
  | 200 => .jsonData 200 body
  | code => .plain code

/-- AsrHandler.generate_client_response (src/workers/whisper/server.py,
lines 73-88): on upstream 200, return the upstream JSON body; on any other
status return web.Response(status=code). -/
def AsrHandler_generate_client_response (upstreamStatus : Nat)
    (body : JsonMsg) : ClientResponse :=
  match upstreamStatus with
  | 200 => .jsonData 200 body
  | code => .plain code

/-- What a handle_request coroutine ends with: a response, or an exception
that escapes the handler into the aiohttp server. -/
inductive HandlerOutcome
  | response (r : ClientResponse)
  | uncaught (errors : List (String × String))
deriving DecidableEq, Repr

/-- GenerateHandler.handle_request (src/workers/tgi/server.py,
lines 56-71): get_data_from_request is wrapped in try/except
JsonDataException, answering 422 with the field-to-reason mapping;
backend.handle_request is wrapped in try/except Exception, answering a
bare 500.  The parse result and the backend call result are the two
inputs. -/
def tgi_GenerateHandler_handle_request
    (parsed : Except (List (String × String)) JsonMsg)
    (backendResult : Except String ClientResponse) : HandlerOutcome :=
  match parsed with
  | .error e => .response (.jsonData 422 e)
  | .ok _ =>
    match backendResult with
    | .error _ => .response (.plain 500)
    | .ok r => .response r

/-- GenerateStreamHandler.handle_request (src/workers/tgi/server.py,
lines 96-109): get_data_from_request is called with no try/except, so a
JsonDataException escapes the handler; only backend.handle_request is
guarded (answering a bare 500). -/
def tgi_GenerateStreamHandler_handle_request
    (parsed : Except (List (String × String)) JsonMsg)
    (backendResult : Except String ClientResponse) : HandlerOutcome :=
  match parsed with
  | .error e => .uncaught e
  | .ok _ =>
    match backendResult with
    | .error _ => .response (.plain 500)
    | .ok r => .response r

/-- GenerateHandler.handle_request (src/workers/hello_world/server.py,
lines 86-102): get_data_from_request is called with no try/except, so a
JsonDataException escapes the handler; only backend.handle_request is
guarded. -/
def hello_GenerateHandler_handle_request
    (parsed : Except (List (String × String)) JsonMsg)
    (backendResult : Except String ClientResponse) : HandlerOutcome :=
  match parsed with
  | .error e => .uncaught e
  | .ok _ =>
    match backendResult with
    | .error _ => .response (.plain 500)
    | .ok r => .response r

/-- GenerateStreamHandler.handle_request
(src/workers/hello_world/server.py, lines 129-143): get_data_from_request
is wrapped in try/except JsonDataException, answering 422 with the
field-to-reason mapping. -/
def hello_GenerateStreamHandler_handle_request
    (parsed : Except (List (String × String)) JsonMsg)
    (backendResult : Except String ClientResponse) : HandlerOutcome :=
  match parsed with
  | .error e => .response (.jsonData 422 e)
  | .ok _ =>
    match backendResult with
    | .error _ => .response (.plain 500)
    | .ok r => .response r

/-- The aiohttp server turns an exception escaping a handler into a plain
500 Internal Server Error response with no JSON body (framework
behaviour, external to the repository). -/
def serveOutcome : HandlerOutcome → ClientResponse
  | .response r => r
  | .uncaught _ => .plain 500

/-! ### Legacy synchronous proxy — src/tgi_backend.py

The Flask/requests variant.  requests.post either raises a
RequestException (transport failure) or returns a response whose
iter_lines output is a list of delimiter-stripped lines; these are the two
Upstream cases, with the chunk list standing for the iter_lines output. -/

/-- The metrics calls of LLMServerMetrics made by the wrapper, by their
source names. -/
inductive TGIMetricsCall
  | start_req
  | finish_req
deriving DecidableEq, Repr

/-- TGIBackend.hf_tgi_wrapper (src/tgi_backend.py, lines 16-28):
start_req runs before the upstream call; on a 200 response every
iter_lines line is yielded followed by a separate newline chunk and then
finish_req runs; on a non-200 response nothing is yielded and finish_req
runs; on a RequestException the error is printed, nothing more is yielded
and finish_req never runs.  Returns the metrics calls made and the chunks
yielded, in order. -/
def hf_tgi_wrapper (up : Upstream) : List TGIMetricsCall × List String :=
  match up with
  | .transportError => ([.start_req], [])
  | .ok status lines =>
    if status = 200 then
      ([.start_req, .finish_req], lines.flatMap (fun l => [l, "\n"]))
    else
      ([.start_req, .finish_req], [])

/-- A Flask Response: its status code and the chunks of its (possibly
generated) body. -/
structure FlaskResponse where
  status : Nat
  chunks : List String
deriving DecidableEq, Repr

/-- TGIBackend.generate_stream (src/tgi_backend.py, lines 30-31): wraps
the hf_tgi_wrapper generator in a Flask Response, whose status defaults to
200 — the status of the upstream call never reaches the client. -/
def generate_stream (up : Upstream) : FlaskResponse × List TGIMetricsCall :=
  let w := hf_tgi_wrapper up
  ({ status := 200, chunks := w.2 }, w.1)

/-- The gate state after arrivals 1 and 2, a start, a finish and a second
start: request 2 in flight, request 1 finished. -/
def gateDemoState : GateState where
  queue := []
  inflight := some 2
  started := [1, 2]
  finished := [1]
  arrived := [1, 2]

/-! Helper lemmas about collectErrors / from_json_msg. -/

lemma collectErrors_go (params : List String) (msg : JsonMsg)
    (acc : List (String × String)) :
    params.foldl
      (fun errs param =>
        if (keysOf msg).contains param then errs
        else errs ++ [(param, "missing parameter")])
      acc
    = acc ++
      (params.filter (fun p => !(keysOf msg).contains p)).map
        (fun p => (p, "missing parameter")) := by
  induction params generalizing acc with
  | nil => simp
  | cons p ps ih =>
    rw [List.foldl_cons]
    by_cases h : (keysOf msg).contains p
    · rw [if_pos h, ih,
        List.filter_cons_of_neg (by simpa using List.mem_of_elem_eq_true h)]
    · rw [if_neg h, ih, List.filter_cons_of_pos (by
        simp only [Bool.not_eq_true'] at h ⊢
        simpa using h)]
      simp

/-- The collected errors are exactly the declared parameters absent from
the body, in declaration order, each mapped to the reason string. -/
lemma collectErrors_eq (params : List String) (msg : JsonMsg) :
    collectErrors params msg
    = (params.filter (fun p => !(keysOf msg).contains p)).map
        (fun p => (p, "missing parameter")) := by
  unfold collectErrors
  rw [collectErrors_go]
  simp

lemma mem_collectErrors (params : List String) (msg : JsonMsg)
    (p : String) (r : String) :
    (p, r) ∈ collectErrors params msg
      ↔ p ∈ params ∧ p ∉ keysOf msg ∧ r = "missing parameter" := by
  simp only [collectErrors_eq, List.mem_map, List.mem_filter]
  constructor
  · rintro ⟨q, ⟨hq, hnot⟩, heq⟩
    cases heq
    refine ⟨hq, ?_, rfl⟩
    simpa using hnot
  · rintro ⟨hp, hnot, rfl⟩
    exact ⟨p, ⟨hp, by simpa using hnot⟩, rfl⟩

lemma collectErrors_isEmpty (params : List String) (msg : JsonMsg) :
    (collectErrors params msg).isEmpty = true
      ↔ ∀ p ∈ params, p ∈ keysOf msg := by
  simp only [collectErrors_eq, List.isEmpty_iff, List.map_eq_nil_iff,
    List.filter_eq_nil_iff]
  constructor
  · intro h p hp
    have := h p hp
    simpa using this
  · intro h p hp
    simpa using h p hp

lemma applyAction_crashed (a : LogAction) :
    applyAction .crashed a = .crashed := by
  cases a <;> rfl

lemma applyAction_modelError (s : HealthState) :
    applyAction s .ModelError = .crashed := by
  cases s <;> rfl

lemma foldl_applyAction_crashed (l : List (LogAction × String)) :
    l.foldl (fun st r => applyAction st r.1) .crashed = .crashed := by
  induction l with
  | nil => rfl
  | cons r rs ih => simpa [applyAction_crashed] using ih

lemma foldl_applyAction_error (l : List (LogAction × String))
    (s : HealthState) (m : String) (hm : (LogAction.ModelError, m) ∈ l) :
    l.foldl (fun st r => applyAction st r.1) s = .crashed := by
  induction l generalizing s with
  | nil => cases hm
  | cons r rs ih =>
    rcases List.mem_cons.mp hm with heq | htail
    · subst heq
      simpa [applyAction_modelError] using foldl_applyAction_crashed rs
    · exact ih (applyAction s r.1) htail

lemma applyLine_crashed (rules : List (LogAction × String)) (line : String) :
    applyLine rules .crashed line = .crashed :=
  foldl_applyAction_crashed _

/-- A line containing a configured ModelError marker drives any state to
Crashed. -/
lemma applyLine_error (rules : List (LogAction × String)) (s : HealthState)
    (line m : String) (hrule : (LogAction.ModelError, m) ∈ rules)
    (hline : lineContains line m = true) :
    applyLine rules s line = .crashed := by
  apply foldl_applyAction_error _ s m
  exact List.mem_filter.mpr ⟨hrule, by simpa using hline⟩

lemma runMonitor_crashed (rules : List (LogAction × String))
    (lines : List String) :
    runMonitor rules .crashed lines = .crashed := by
  induction lines with
  | nil => rfl
  | cons l ls ih => simpa [runMonitor, applyLine_crashed] using ih

lemma gateInv_init : GateInv gate0 := by
  constructor <;> rfl

lemma stepGate_inv {s s2 : GateState} {e : GateEvent} (hinv : GateInv s)
    (hstep : stepGate s e = some s2) : GateInv s2 := by
  obtain ⟨h1, h2⟩ := hinv
  cases e with
  | arrive r =>
    simp only [stepGate, Option.some.injEq] at hstep
    subst hstep
    exact ⟨by simpa using h1, by simp [h2]⟩
  | start =>
    simp only [stepGate] at hstep
    split at hstep
    case _ r rest hin hq =>
      simp only [Option.some.injEq] at hstep
      subst hstep
      rw [hin] at h1
      rw [hq] at h2
      exact ⟨by simpa using h1, by simpa using h2⟩
    case _ => exact absurd hstep (by simp)
  | finish =>
    simp only [stepGate] at hstep
    split at hstep
    case _ r hin =>
      simp only [Option.some.injEq] at hstep
      subst hstep
      rw [hin] at h1
      exact ⟨by simpa using h1, by simpa using h2⟩
    case _ => exact absurd hstep (by simp)

lemma runGate_inv {s s2 : GateState} {es : List GateEvent} (hinv : GateInv s)
    (hrun : runGate s es = some s2) : GateInv s2 := by
  induction es generalizing s with
  | nil => simp only [runGate, Option.some.injEq] at hrun; subst hrun; exact hinv
  | cons e es ih =>
    simp only [runGate] at hrun
    match hstep : stepGate s e with
    | none => rw [hstep] at hrun; simp at hrun
    | some s1 =>
      rw [hstep] at hrun
      exact ih (stepGate_inv hinv hstep) hrun

/-! ### Further validation lemmas -/

lemma from_json_msg_eq (params : List String) (msg : JsonMsg) :
    from_json_msg params msg =
      if (collectErrors params msg).isEmpty then
        .ok (msg.filter (fun kv => params.contains kv.1))
      else .error (collectErrors params msg) := rfl

lemma from_json_msg_error_inv (params : List String) (msg : JsonMsg)
    (errs : List (String × String))
    (h : from_json_msg params msg = .error errs) :
    errs = collectErrors params msg := by
  rw [from_json_msg_eq] at h
  by_cases hemp : (collectErrors params msg).isEmpty
  · rw [if_pos hemp] at h; cases h
  · rw [if_neg hemp] at h
    exact (Except.error.injEq _ _ ▸ congrArg id h).symm ▸ (by cases h; rfl)

/-! ### Claim theorems: payload validation -/

/-- Claim C1: for every declared parameter list and every JSON body,
validation by from_json_msg enumerates exactly the declared fields missing
from the body, no more and no fewer — a pair belongs to the structured
failure iff its field is declared and absent and its reason is the fixed
string — a body containing every declared field yields no failure, and
the spec scenario instance (a /generate body missing both inputs and
parameters) fails naming both fields. -/
theorem validation_enumerates_missing_fields :
    (∀ (params : List String) (msg : JsonMsg) (errs : List (String × String)),
      from_json_msg params msg = .error errs →
        ∀ p r, ((p, r) ∈ errs
          ↔ p ∈ params ∧ p ∉ keysOf msg ∧ r = "missing parameter"))
    ∧ (∀ (params : List String) (msg : JsonMsg),
        (∀ p ∈ params, p ∈ keysOf msg) →
          from_json_msg params msg
            = .ok (msg.filter (fun kv => params.contains kv.1)))
    ∧ from_json_msg ["inputs", "parameters"] []
        = .error [("inputs", "missing parameter"),
                  ("parameters", "missing parameter")] := by
  refine ⟨?_, ?_, ?_⟩
  · intro params msg errs herr p r
    rw [from_json_msg_error_inv params msg errs herr]
    exact mem_collectErrors params msg p r
  · intro params msg hall
    rw [from_json_msg_eq,
      if_pos ((collectErrors_isEmpty params msg).mpr hall)]
  · rfl

/-- Claim C1 witness: at the concrete whisper parameter list and a body
missing the audio_file field, the conclusion holds at a concrete pair. -/
theorem validation_enumerates_missing_fields_witness :
    ((("audio_file", "missing parameter")
        ∈ [(("audio_file" : String), ("missing parameter" : String))])
      ↔ ("audio_file" ∈ whisperParams
          ∧ "audio_file" ∉ keysOf [] ∧ "missing parameter" = "missing parameter")) :=
  validation_enumerates_missing_fields.1 whisperParams [] _ rfl
    "audio_file" "missing parameter"

/-- Claim C9: count_workload is the constant 11 for every InputData — it
does not depend on the audio_file field, so it equals its value on the
canonical test instance for every payload. -/
theorem count_workload_constant :
    (∀ d : InputData, d.count_workload = 11)
    ∧ (∀ d e : InputData, d.count_workload = e.count_workload)
    ∧ InputData.for_test.count_workload = 11 :=
  ⟨fun _ => rfl, fun _ _ => rfl, rfl⟩

/-- Claim C10: from_json_msg fails iff some declared field is missing from
the body; a reported field is always a declared one (unknown keys are
never reported); and on success the constructed payload is the body
restricted to the declared fields, so unknown keys are silently dropped
and every retained key is declared. -/
theorem from_json_msg_error_iff_missing :
    (∀ (params : List String) (msg : JsonMsg),
      (∃ e, from_json_msg params msg = .error e)
        ↔ ∃ p ∈ params, p ∉ keysOf msg)
    ∧ (∀ (params : List String) (msg : JsonMsg)
        (errs : List (String × String)) (p r : String),
        from_json_msg params msg = .error errs → (p, r) ∈ errs → p ∈ params)
    ∧ (∀ (params : List String) (msg : JsonMsg) (payload : JsonMsg),
        from_json_msg params msg = .ok payload →
          payload = msg.filter (fun kv => params.contains kv.1)
          ∧ ∀ kv ∈ payload, kv.1 ∈ params) := by
  refine ⟨?_, ?_, ?_⟩
  · intro params msg
    constructor
    · rintro ⟨e, he⟩
      have herr := from_json_msg_error_inv params msg e he
      rw [from_json_msg_eq] at he
      by_cases hemp : (collectErrors params msg).isEmpty
      · rw [if_pos hemp] at he; cases he
      · have := mt (collectErrors_isEmpty params msg).mpr hemp
        push_neg at this
        obtain ⟨p, hp, hnot⟩ := this
        exact ⟨p, hp, hnot⟩
    · rintro ⟨p, hp, hnot⟩
      rw [from_json_msg_eq]
      have hne : ¬(collectErrors params msg).isEmpty := by
        intro hemp
        exact hnot ((collectErrors_isEmpty params msg).mp hemp p hp)
      rw [if_neg hne]
      exact ⟨_, rfl⟩
  · intro params msg errs p r herr hmem
    rw [from_json_msg_error_inv params msg errs herr] at hmem
    exact ((mem_collectErrors params msg p r).mp hmem).1
  · intro params msg payload hok
    rw [from_json_msg_eq] at hok
    by_cases hemp : (collectErrors params msg).isEmpty
    · rw [if_pos hemp] at hok
      cases hok
      refine ⟨rfl, ?_⟩
      intro kv hkv
      have := List.of_mem_filter hkv
      simpa using this
    · rw [if_neg hemp] at hok; cases hok

/-! ### Claim theorems: health state and gate -/

lemma mem_left_of_indexOf_lt {α : Type} [DecidableEq α] (l₁ l₂ : List α)
    (a : α) (h : (l₁ ++ l₂).indexOf a < l₁.length) : a ∈ l₁ := by
  by_contra hnot
  rw [List.indexOf_append_of_not_mem hnot] at h
  omega

/-- Claim C3 (Health State modelled from the spec; rule lists from the
worker servers): once a log line containing a configured ModelError marker
is observed, the Health State is Crashed from any prior state, it stays
Crashed under every later log line, and every request submitted afterward
is answered without any upstream call being attempted. -/
theorem crashed_terminal (rules : List (LogAction × String)) (m : String)
    (hrule : (LogAction.ModelError, m) ∈ rules)
    (s : HealthState) (line : String)
    (hline : lineContains line m = true)
    (later : List String) :
    applyLine rules s line = .crashed
    ∧ runMonitor rules (applyLine rules s line) later = .crashed
    ∧ ∀ (parsed : Except (List (String × String)) JsonMsg) (up : Upstream),
        (pipelineStep (runMonitor rules (applyLine rules s line) later)
          parsed up).upstreamCalled = false := by
  have h1 := applyLine_error rules s line m hrule hline
  have h2 : runMonitor rules (applyLine rules s line) later = .crashed := by
    rw [h1]; exact runMonitor_crashed rules later
  refine ⟨h1, h2, ?_⟩
  intro parsed up
  rw [h2]
  cases parsed with
  | error e => rfl
  | ok v => simp [pipelineStep]

/-- Claim C3 witness: a ready whisper backend sees a line containing the
configured CUDA error marker; it crashes, stays crashed through a later
startup-complete line, and a subsequent well-formed request attempts no
upstream call. -/
theorem crashed_terminal_witness :
    applyLine whisperLogActions .ready "a CUDA error happened" = .crashed
    ∧ runMonitor whisperLogActions
        (applyLine whisperLogActions .ready "a CUDA error happened")
        ["Application startup complete."] = .crashed
    ∧ ∀ (parsed : Except (List (String × String)) JsonMsg) (up : Upstream),
        (pipelineStep
          (runMonitor whisperLogActions
            (applyLine whisperLogActions .ready "a CUDA error happened")
            ["Application startup complete."]) parsed up).upstreamCalled
          = false :=
  crashed_terminal whisperLogActions "CUDA error" (by decide) .ready
    "a CUDA error happened" (by decide) ["Application startup complete."]

/-- Claim C2 (gate modelled from the spec, Exclusive mode): in every state
the gate can reach, at most one request is outstanding (the started
history exceeds the finished one by at most the single in-flight slot),
and whenever a later-arriving request R2 has started, every earlier
arrival R1 has already fully completed — upstream calls are serialized in
strict FIFO arrival order regardless of outcome. -/
theorem exclusive_gate_serializes (es : List GateEvent) (s : GateState)
    (hrun : runGate gate0 es = some s)
    (r1 r2 : Nat)
    (horder : s.arrived.indexOf r1 < s.arrived.indexOf r2)
    (hstarted : r2 ∈ s.started) :
    r1 ∈ s.finished ∧ s.started.length ≤ s.finished.length + 1 := by
  obtain ⟨h1, h2⟩ := runGate_inv gateInv_init hrun
  have hi2 : s.arrived.indexOf r2 = s.started.indexOf r2 := by
    rw [h2]; exact List.indexOf_append_of_mem hstarted
  have hi2lt : s.started.indexOf r2 < s.started.length :=
    List.indexOf_lt_length.mpr hstarted
  have hr1s : r1 ∈ s.started := by
    refine mem_left_of_indexOf_lt s.started s.queue r1 ?_
    rw [← h2]
    omega
  have hi1 : s.arrived.indexOf r1 = s.started.indexOf r1 := by
    rw [h2]; exact List.indexOf_append_of_mem hr1s
  have horder2 : s.started.indexOf r1 < s.started.indexOf r2 := by omega
  constructor
  · cases hin : s.inflight with
    | none =>
      rw [hin] at h1
      simp only [Option.toList_none, List.append_nil] at h1
      exact h1 ▸ hr1s
    | some c =>
      rw [hin] at h1
      simp only [Option.toList_some] at h1
      have hlen : s.started.length = s.finished.length + 1 := by
        rw [h1]; simp
      have hkey : (s.finished ++ [c]).indexOf r1 < s.finished.length := by
        rw [← h1]
        omega
      exact mem_left_of_indexOf_lt s.finished [c] r1 hkey
  · cases hin : s.inflight with
    | none =>
      rw [hin] at h1
      simp only [Option.toList_none, List.append_nil] at h1
      rw [h1]
      omega
    | some c =>
      rw [hin] at h1
      simp only [Option.toList_some] at h1
      rw [h1]
      simp

/-- Claim C2 witness: after arrivals 1 then 2, a start, a finish and a
second start, request 2 is in flight; request 1 is already finished and at
most one request is outstanding. -/
theorem exclusive_gate_serializes_witness :
    (1 : Nat) ∈ gateDemoState.finished
    ∧ gateDemoState.started.length ≤ gateDemoState.finished.length + 1 :=
  exclusive_gate_serializes
    [.arrive 1, .arrive 2, .start, .finish, .start] gateDemoState rfl 1 2
    (by decide) (by decide)

/-! ### Claim theorems: streaming, status passthrough, error paths -/

lemma writeLoop_written (res : StreamResponse) (cs : List String) :
    writeLoop res cs
      = { res with written := res.written ++ cs } := by
  induction cs generalizing res with
  | nil => simp [writeLoop]
  | cons c cs ih =>
    rw [writeLoop, ih]
    simp

/-- Claim C4 counterexample: the repository's legacy synchronous streaming
endpoint does not hand the client the upstream chunk sequence: on a 200
upstream response whose line iterator yields the single chunk "hello", the
client response carries the two chunks "hello" and a separate newline,
which differs from the upstream sequence. -/
theorem sync_stream_rechunks :
    (generate_stream (.ok 200 ["hello"])).1.chunks = ["hello", "\n"]
    ∧ (generate_stream (.ok 200 ["hello"])).1.chunks ≠ ["hello"] :=
  ⟨rfl, by decide⟩

/-- Claim C4 amended: for every streaming request with a 200 upstream
response handled through the async pipeline streaming handler
(GenerateStreamHandler.generate_response), the chunk sequence written to
the client exactly equals the upstream chunk sequence in order, chunks are
forwarded one by one as they arrive, and an explicit end-of-stream signal
is emitted after the last chunk even when the upstream stream just ends;
the legacy synchronous wrapper (TGIBackend.hf_tgi_wrapper) instead yields
each upstream line followed by a separate newline chunk. -/
theorem streaming_forwards_verbatim_with_eof :
    (∀ chunks : List String,
      GenerateStreamHandler_generate_response 200 chunks
        = .streamed { contentType := "text/event-stream",
                      written := chunks, eofSent := true })
    ∧ (∀ lines : List String,
        (hf_tgi_wrapper (.ok 200 lines)).2
          = lines.flatMap (fun l => [l, "\n"])) := by
  constructor
  · intro chunks
    show ClientResponse.streamed _ = _
    rw [writeLoop_written]
    simp
  · intro lines
    rfl

/-- Claim C5: the 422 validation contract does not hold on every
adapter-bound endpoint.  For a body missing both inputs and parameters,
the tgi /generate_stream handler and the hello_world /generate handler
let the JsonDataException escape, so the aiohttp server answers a bare 500
with no field-to-reason body — while the sibling tgi /generate handler
answers 422 with the full mapping from the same body. -/
theorem validation_422_not_universal :
    serveOutcome (tgi_GenerateStreamHandler_handle_request
        (from_json_msg ["inputs", "parameters"] []) (.ok (.plain 200)))
      = .plain 500
    ∧ serveOutcome (hello_GenerateHandler_handle_request
        (from_json_msg ["inputs", "parameters"] []) (.ok (.plain 200)))
      = .plain 500
    ∧ serveOutcome (tgi_GenerateHandler_handle_request
        (from_json_msg ["inputs", "parameters"] []) (.ok (.plain 200)))
      = .jsonData 422 [("inputs", "missing parameter"),
                       ("parameters", "missing parameter")] :=
  ⟨rfl, rfl, rfl⟩

/-- Claim C6 counterexample: on an upstream transport failure
(requests.post raising), the legacy synchronous worker does not answer a
generic 500: the RequestException is swallowed, the generator ends, and
the client receives an empty response whose status is the Flask default
200. -/
theorem sync_transport_error_returns_200 :
    (generate_stream .transportError).1.status = 200
    ∧ (generate_stream .transportError).1.status ≠ 500
    ∧ (generate_stream .transportError).1.chunks = [] :=
  ⟨rfl, by decide, rfl⟩

/-- Claim C6 amended: for requests handled through the async pipeline, an
upstream transport failure yields a generic 500 to the client, the Health
State is unchanged (still Ready), the next request in sequence is still
attempted (its upstream call is made), and an exception escaping
backend.handle_request into the tgi /generate handler is likewise caught
and answered 500; the legacy synchronous wrapper instead swallows the
failure into an empty status-200 response. -/
theorem transport_error_isolated (msg next : JsonMsg) :
    (pipelineStep .ready (.ok msg) .transportError).status = 500
    ∧ (pipelineRun .ready
        [(.ok msg, .transportError), (.ok next, .ok 200 [])]).2 = .ready
    ∧ (∀ up2 : Upstream,
        ((pipelineRun .ready [(.ok msg, .transportError), (.ok next, up2)]).1.map
            PipeResult.upstreamCalled) = [true, true])
    ∧ tgi_GenerateHandler_handle_request (.ok msg)
        (.error "upstream transport failure") = .response (.plain 500) := by
  refine ⟨rfl, rfl, ?_, rfl⟩
  intro up2
  cases up2 <;> rfl

/-- Claim C7 counterexample: a non-200 upstream status is not passed
through by the legacy synchronous streaming endpoint: on an upstream 503
the client response status is the Flask default 200. -/
theorem sync_non200_not_passed_through :
    (generate_stream (.ok 503 ["oops"])).1.status = 200
    ∧ (generate_stream (.ok 503 ["oops"])).1.status ≠ 503 :=
  ⟨rfl, by decide⟩

/-- Claim C7 amended: every async endpoint handler passes a non-200
upstream status code through to the client exactly, as a bare
web.Response with no body transformation and no streaming — shown for the
whisper /asr handler, the tgi and hello_world /generate handlers and the
/generate_stream handlers. -/
theorem non200_status_passthrough (code : Nat) (hcode : code ≠ 200) :
    (∀ body : JsonMsg, AsrHandler_generate_client_response code body = .plain code)
    ∧ (∀ body : JsonMsg, GenerateHandler_generate_response code body = .plain code)
    ∧ (∀ chunks : List String,
        GenerateStreamHandler_generate_response code chunks = .plain code) := by
  refine ⟨?_, ?_, ?_⟩
  · intro body
    unfold AsrHandler_generate_client_response
    split
    · exact absurd rfl hcode
    · rfl
  · intro body
    unfold GenerateHandler_generate_response
    split
    · exact absurd rfl hcode
    · rfl
  · intro chunks
    unfold GenerateStreamHandler_generate_response
    split
    · exact absurd rfl hcode
    · rfl

/-- Claim C7 witness: an upstream 503 is passed through as a bodyless 503
by each async handler. -/
theorem non200_status_passthrough_witness :
    (∀ body : JsonMsg, AsrHandler_generate_client_response 503 body = .plain 503)
    ∧ (∀ body : JsonMsg, GenerateHandler_generate_response 503 body = .plain 503)
    ∧ (∀ chunks : List String,
        GenerateStreamHandler_generate_response 503 chunks = .plain 503) :=
  non200_status_passthrough 503 (by decide)

/-- Claim C8: on an upstream transport failure the legacy synchronous
wrapper records the start of the Workload Sample (start_req runs before
the upstream call) but never finalizes it — finish_req is skipped on the
exception path — while both non-raising paths (upstream 200 and upstream
non-200) finalize it exactly once. -/
theorem sample_not_finalized_on_transport_error :
    (hf_tgi_wrapper .transportError).1 = [.start_req]
    ∧ TGIMetricsCall.finish_req ∉ (hf_tgi_wrapper .transportError).1
    ∧ (hf_tgi_wrapper (.ok 200 ["x"])).1 = [.start_req, .finish_req]
    ∧ (hf_tgi_wrapper (.ok 503 [])).1 = [.start_req, .finish_req] :=
  ⟨rfl, by decide, rfl, rfl⟩

end VastPyworker
